import Mathlib

/-
Verification of the OTLP trace exporter lifecycle controller
(exporters/otlp/otlptrace/exporter.go).

The Go code is embedded shallowly:

* `Exporter` mirrors the struct fields that carry state: the `started`
  boolean and the consumed/unconsumed status of the two `sync.Once`
  gates (`startOnce`, `stopOnce`).  The `sync.RWMutex` only makes the
  flag reads/writes atomic; in this sequential-interleaving model every
  operation is a single atomic step, so the mutex has no separate
  representation.
* The `Client` interface is a behaviour record: what each of its three
  operations returns.  Every controller operation additionally produces
  the list of Client calls it performed, so "the Client is invoked
  exactly once" is a statement about that log.
* Errors are `Option ExpError`: `none` is Go's `nil` error,
  `ExpError.alreadyStarted` is the package sentinel `errAlreadyStarted`,
  and `ExpError.client n` is an opaque Client-produced error.
-/

namespace Otlptrace

/-- Errors observable from the controller: the package-level
`errAlreadyStarted` sentinel, or an opaque error produced by the Client. -/
inductive ExpError where
  | alreadyStarted : ExpError
  | client : Nat → ExpError
deriving DecidableEq, Repr

/-- Behaviour of a `Client` implementation: the result of its
`Start`, `UploadTraces` and `Stop` operations. -/
structure ClientBehavior (Wire : Type) where
  startErr : Option ExpError
  uploadErr : List Wire → Option ExpError
  stopErr : Option ExpError

/-- One invocation of a Client operation, as recorded in a call log. -/
inductive ClientCall (Wire : Type) where
  | start : ClientCall Wire
  | upload : List Wire → ClientCall Wire
  | stop : ClientCall Wire
deriving DecidableEq, Repr

/-- Mutable state of the `Exporter` struct: the `started` flag and
whether each `sync.Once` has already run its function. -/
structure Exporter where
  started : Bool
  startOnceDone : Bool
  stopOnceDone : Bool
deriving DecidableEq, Repr

/-- `NewUnstartedExporter` builds the zero-value controller state. -/
def NewUnstartedExporter : Exporter :=
  { started := false, startOnceDone := false, stopOnceDone := false }

/-- Result of one controller operation: the returned error, the
post-state of the exporter, and the Client calls performed. -/
structure OpResult (Wire : Type) where
  err : Option ExpError
  exp : Exporter
  calls : List (ClientCall Wire)
deriving DecidableEq, Repr

/-- Modelled from the spec: `tracetransform.Spans` is not part of the
source fragment; per spec section 4.1 it is a pure, stateless,
order-preserving map from trace records to wire records whose empty
input produces an empty output.  It is modelled as `List.map` of a
per-record encoding. -/
def tracetransformSpans {Rec Wire : Type} (f : Rec → Wire) (ss : List Rec) : List Wire :=
  ss.map f

/-- `Exporter.ExportSpans`: transform the batch, return nil without
touching the Client when the transformed batch is empty, otherwise
forward it to `client.UploadTraces` and return its result. -/
def ExportSpans {Rec Wire : Type} (c : ClientBehavior Wire)
    (spansTf : List Rec → List Wire) (e : Exporter) (ss : List Rec) : OpResult Wire :=
  if (spansTf ss).length = 0 then
    { err := none, exp := e, calls := [] }
  else
    { err := c.uploadErr (spansTf ss), exp := e
      calls := [ClientCall.upload (spansTf ss)] }

/-- `Exporter.Start`: `err` is initialised to `errAlreadyStarted`;
`startOnce.Do` runs only if the gate is unconsumed, setting
`started := true` before calling `client.Start` and overwriting `err`
with the Client result. -/
def Start {Wire : Type} (c : ClientBehavior Wire) (e : Exporter) : OpResult Wire :=
  if e.startOnceDone then
    { err := some ExpError.alreadyStarted, exp := e, calls := [] }
  else
    { err := c.startErr
      exp := { e with started := true, startOnceDone := true }
      calls := [ClientCall.start] }

/-- `Exporter.Shutdown`: read `started` under the read lock and return
nil if false; otherwise `err` is initialised to nil and `stopOnce.Do`
runs only if the gate is unconsumed, calling `client.Stop`, storing its
result in the caller-local `err`, and clearing `started`. -/
def Shutdown {Wire : Type} (c : ClientBehavior Wire) (e : Exporter) : OpResult Wire :=
  if e.started = false then
    { err := none, exp := e, calls := [] }
  else if e.stopOnceDone then
    { err := none, exp := e, calls := [] }
  else
    { err := c.stopErr
      exp := { e with started := false, stopOnceDone := true }
      calls := [ClientCall.stop] }

/-- `NewExporter` builds an unstarted exporter and starts it, returning
`(nil, err)` when the start fails and `(exp, nil)` otherwise. -/
def NewExporter {Wire : Type} (c : ClientBehavior Wire) :
    Option Exporter × Option ExpError × List (ClientCall Wire) :=
  let exp := NewUnstartedExporter
  let r := Start c exp
  match r.err with
  | some er => (none, some er, r.calls)
  | none => (some r.exp, none, r.calls)

/-- The operations a caller can perform on a controller after
construction. -/
inductive Op (Rec : Type) where
  | start : Op Rec
  | shutdown : Op Rec
  | exportSpans : List Rec → Op Rec
deriving DecidableEq, Repr

/-- Execute one caller operation on the controller. -/
def step {Rec Wire : Type} (c : ClientBehavior Wire)
    (spansTf : List Rec → List Wire) (e : Exporter) : Op Rec → OpResult Wire
  | Op.start => Start c e
  | Op.shutdown => Shutdown c e
  | Op.exportSpans ss => ExportSpans c spansTf e ss

/-- Execute a sequence of caller operations, collecting the final
state, the per-operation results, and the concatenated Client call
log. -/
def runOps {Rec Wire : Type} (c : ClientBehavior Wire)
    (spansTf : List Rec → List Wire) (e : Exporter) :
    List (Op Rec) → Exporter × List (Option ExpError) × List (ClientCall Wire)
  | [] => (e, [], [])
  | op :: ops =>
    let r := step c spansTf e op
    let rest := runOps c spansTf r.exp ops
    (rest.1, r.err :: rest.2.1, r.calls ++ rest.2.2)

/-- Abstract lifecycle states from the spec. -/
inductive ControllerState where
  | Idle : ControllerState
  | Running : ControllerState
  | Stopped : ControllerState
deriving DecidableEq, Repr

/-- Abstraction map from concrete exporter state to the spec's
lifecycle state. -/
def Exporter.abstractState (e : Exporter) : ControllerState :=
  if e.started then ControllerState.Running
  else if e.stopOnceDone then ControllerState.Stopped
  else ControllerState.Idle

/-- Concrete states reachable from construction: the zero value, the
started state, and the stopped state. -/
def Exporter.wf (e : Exporter) : Prop :=
  (e.started = false ∧ e.startOnceDone = false ∧ e.stopOnceDone = false) ∨
  (e.started = true ∧ e.startOnceDone = true ∧ e.stopOnceDone = false) ∨
  (e.started = false ∧ e.startOnceDone = true ∧ e.stopOnceDone = true)

/-- Recognisers for the three Client operations, used to count calls
in a log. -/
def ClientCall.isStart {Wire : Type} : ClientCall Wire → Bool
  | ClientCall.start => true
  | _ => false

def ClientCall.isStop {Wire : Type} : ClientCall Wire → Bool
  | ClientCall.stop => true
  | _ => false

def ClientCall.isUpload {Wire : Type} : ClientCall Wire → Bool
  | ClientCall.upload _ => true
  | _ => false

/-- Concrete Client whose three operations all succeed, used to
instantiate universally quantified theorems. -/
def natClientOk : ClientBehavior Nat :=
  { startErr := none, uploadErr := fun _ => none, stopErr := none }

/-- Concrete Client whose `Stop` fails with an opaque error. -/
def natClientStopFail : ClientBehavior Nat :=
  { startErr := none, uploadErr := fun _ => none, stopErr := some (ExpError.client 7) }

/-- Concrete Client whose `Start` fails with an opaque error. -/
def natClientStartFail : ClientBehavior Nat :=
  { startErr := some (ExpError.client 3), uploadErr := fun _ => none, stopErr := none }

/-- ExportSpans never modifies the exporter state. -/
theorem exportSpans_exp {Rec Wire : Type} (c : ClientBehavior Wire)
    (spansTf : List Rec → List Wire) (e : Exporter) (ss : List Rec) :
    (ExportSpans c spansTf e ss).exp = e := by
  unfold ExportSpans
  split <;> rfl

/-- ExportSpans performs no `start` or `stop` Client calls. -/
theorem exportSpans_calls_no_lifecycle {Rec Wire : Type} (c : ClientBehavior Wire)
    (spansTf : List Rec → List Wire) (e : Exporter) (ss : List Rec) :
    List.countP ClientCall.isStart (ExportSpans c spansTf e ss).calls = 0
    ∧ List.countP ClientCall.isStop (ExportSpans c spansTf e ss).calls = 0 := by
  unfold ExportSpans
  split <;> simp [ClientCall.isStart, ClientCall.isStop]

/-- Case analysis of one step's effect on the exporter state. -/
theorem step_exp_cases {Rec Wire : Type} (c : ClientBehavior Wire)
    (tf : List Rec → List Wire) (e : Exporter) (op : Op Rec) :
    (step c tf e op).exp = e
    ∨ (op = Op.start ∧ e.startOnceDone = false
        ∧ (step c tf e op).exp = { e with started := true, startOnceDone := true })
    ∨ (op = Op.shutdown ∧ e.started = true ∧ e.stopOnceDone = false
        ∧ (step c tf e op).exp = { e with started := false, stopOnceDone := true }) := by
  cases op with
  | start =>
    by_cases h : e.startOnceDone
    · left
      simp [step, Start, h]
    · right; left
      refine ⟨rfl, by simpa using h, ?_⟩
      simp [step, Start, h]
  | shutdown =>
    by_cases h1 : e.started
    · by_cases h2 : e.stopOnceDone
      · left
        simp [step, Shutdown, h1, h2]
      · right; right
        refine ⟨rfl, by simpa using h1, by simpa using h2, ?_⟩
        simp [step, Shutdown, h1, h2]
    · left
      simp [step, Shutdown, h1]
  | exportSpans ss =>
    left
    exact exportSpans_exp c tf e ss

/-- A run that contains no `start` operation leaves the zero-value
exporter state untouched. -/
theorem runOps_no_start_state {Rec Wire : Type} (c : ClientBehavior Wire)
    (tf : List Rec → List Wire) :
    ∀ ops : List (Op Rec), Op.start ∉ ops →
      (runOps c tf NewUnstartedExporter ops).1 = NewUnstartedExporter := by
  intro ops
  induction ops with
  | nil => intro _; rfl
  | cons op ops ih =>
    intro h
    have hop : op ≠ Op.start := fun hh => h (hh ▸ List.mem_cons_self op ops)
    have hexp : (step c tf NewUnstartedExporter op).exp = NewUnstartedExporter := by
      cases op with
      | start => exact absurd rfl hop
      | shutdown => rfl
      | exportSpans ss => exact exportSpans_exp c tf NewUnstartedExporter ss
    have htail : Op.start ∉ ops := fun hh => h (List.mem_cons_of_mem op hh)
    show (runOps c tf (step c tf NewUnstartedExporter op).exp ops).1 = NewUnstartedExporter
    rw [hexp]
    exact ih htail

/-- From a state with `started = false` and the start gate consumed,
every operation is inert: the state never changes, no `stop` Client
call ever happens again, and every Shutdown operation returns nil. -/
theorem runOps_inert {Rec Wire : Type} (c : ClientBehavior Wire)
    (tf : List Rec → List Wire) (e : Exporter)
    (h1 : e.started = false) (h2 : e.startOnceDone = true) :
    ∀ ops : List (Op Rec),
      (runOps c tf e ops).1 = e
      ∧ List.countP ClientCall.isStop (runOps c tf e ops).2.2 = 0
      ∧ ∀ p ∈ ops.zip (runOps c tf e ops).2.1, p.1 = Op.shutdown → p.2 = none := by
  intro ops
  induction ops with
  | nil => exact ⟨rfl, rfl, by intro p hp; simp at hp⟩
  | cons op ops ih =>
    have hexp : (step c tf e op).exp = e := by
      cases op with
      | start => simp [step, Start, h2]
      | shutdown => simp [step, Shutdown, h1]
      | exportSpans ss => exact exportSpans_exp c tf e ss
    have hcalls : List.countP ClientCall.isStop (step c tf e op).calls = 0 := by
      cases op with
      | start => simp [step, Start, h2]
      | shutdown => simp [step, Shutdown, h1]
      | exportSpans ss => exact (exportSpans_calls_no_lifecycle c tf e ss).2
    have herr : op = Op.shutdown → (step c tf e op).err = none := by
      intro hop
      subst hop
      simp [step, Shutdown, h1]
    refine ⟨?_, ?_, ?_⟩
    · show (runOps c tf (step c tf e op).exp ops).1 = e
      rw [hexp]
      exact ih.1
    · show List.countP ClientCall.isStop
        ((step c tf e op).calls ++ (runOps c tf (step c tf e op).exp ops).2.2) = 0
      rw [hexp, List.countP_append, hcalls, ih.2.1]
    · show ∀ p ∈ (op :: ops).zip
          ((step c tf e op).err :: (runOps c tf (step c tf e op).exp ops).2.1),
        p.1 = Op.shutdown → p.2 = none
      rw [hexp]
      intro p hp hsd
      rcases List.mem_cons.mp hp with hp | hp
      · rw [hp] at hsd ⊢
        exact herr hsd
      · exact ih.2.2 p hp hsd

/-- Start when the gate is already consumed: sentinel error, no state
change, no Client call. -/
theorem start_done {Wire : Type} (c : ClientBehavior Wire) (e : Exporter)
    (h : e.startOnceDone = true) :
    Start c e = { err := some ExpError.alreadyStarted, exp := e, calls := [] } := by
  simp [Start, h]

/-- Start when the gate is fresh: the flag flips and the Client is
called once. -/
theorem start_fresh {Wire : Type} (c : ClientBehavior Wire) (e : Exporter)
    (h : e.startOnceDone = false) :
    Start c e = { err := c.startErr
                  exp := { e with started := true, startOnceDone := true }
                  calls := [ClientCall.start] } := by
  simp [Start, h]

/-- Shutdown of a controller whose `started` flag is down: nil result,
no state change, no Client call. -/
theorem shutdown_not_started {Wire : Type} (c : ClientBehavior Wire) (e : Exporter)
    (h : e.started = false) :
    Shutdown c e = { err := none, exp := e, calls := [] } := by
  simp [Shutdown, h]

/-- Shutdown when the stop gate is already consumed: nil result, no
state change, no Client call. -/
theorem shutdown_done {Wire : Type} (c : ClientBehavior Wire) (e : Exporter)
    (h : e.stopOnceDone = true) :
    Shutdown c e = { err := none, exp := e, calls := [] } := by
  by_cases hs : e.started = false
  · simp [Shutdown, hs]
  · simp [Shutdown, hs, h]

/-- Shutdown of a started controller with a fresh stop gate: the Client
is stopped once and the flag cleared. -/
theorem shutdown_fresh {Wire : Type} (c : ClientBehavior Wire) (e : Exporter)
    (h1 : e.started = true) (h2 : e.stopOnceDone = false) :
    Shutdown c e = { err := c.stopErr
                     exp := { e with started := false, stopOnceDone := true }
                     calls := [ClientCall.stop] } := by
  simp [Shutdown, h1, h2]

/-- Over any run, at most one `start` Client call is made: none if the
start gate is already consumed, at most one otherwise. -/
theorem runOps_start_calls_bound {Rec Wire : Type} (c : ClientBehavior Wire)
    (tf : List Rec → List Wire) :
    ∀ (ops : List (Op Rec)) (e : Exporter),
      List.countP ClientCall.isStart (runOps c tf e ops).2.2 ≤
        if e.startOnceDone then 0 else 1 := by
  intro ops
  induction ops with
  | nil =>
    intro e
    simp [runOps]
  | cons op ops ih =>
    intro e
    show List.countP ClientCall.isStart
        ((step c tf e op).calls ++ (runOps c tf (step c tf e op).exp ops).2.2) ≤ _
    rw [List.countP_append]
    cases op with
    | start =>
      have hstep : step c tf e Op.start = Start c e := rfl
      rw [hstep]
      by_cases h : e.startOnceDone = true
      · rw [start_done c e h]
        have := ih e
        simp only [h, if_true] at this ⊢
        simpa using this
      · have h' : e.startOnceDone = false := by simpa using h
        rw [start_fresh c e h']
        have := ih { e with started := true, startOnceDone := true }
        simp only [if_pos] at this
        simp only [h', if_neg, Bool.false_eq_true, not_false_iff, if_false]
        have hc : List.countP ClientCall.isStart
            ([ClientCall.start] : List (ClientCall Wire)) = 1 := by
          simp [ClientCall.isStart]
        omega
    | shutdown =>
      have hstep : step c tf e Op.shutdown = Shutdown c e := rfl
      rw [hstep]
      have h1 : List.countP ClientCall.isStart (Shutdown c e).calls = 0 := by
        by_cases hs : e.started = false
        · rw [shutdown_not_started c e hs]; rfl
        · by_cases hd : e.stopOnceDone = true
          · rw [shutdown_done c e hd]; rfl
          · rw [shutdown_fresh c e (by simpa using hs) (by simpa using hd)]
            simp [ClientCall.isStart]
      have h2 : (Shutdown c e).exp.startOnceDone = e.startOnceDone := by
        by_cases hs : e.started = false
        · rw [shutdown_not_started c e hs]
        · by_cases hd : e.stopOnceDone = true
          · rw [shutdown_done c e hd]
          · rw [shutdown_fresh c e (by simpa using hs) (by simpa using hd)]
      rw [h1]
      have := ih (Shutdown c e).exp
      rw [h2] at this
      omega
    | exportSpans ss =>
      have hstep : step c tf e (Op.exportSpans ss) = ExportSpans c tf e ss := rfl
      rw [hstep]
      rw [(exportSpans_calls_no_lifecycle c tf e ss).1, exportSpans_exp c tf e ss]
      have := ih e
      omega

/-- Over any run, at most one `stop` Client call is made: none if the
stop gate is already consumed, at most one otherwise. -/
theorem runOps_stop_calls_bound {Rec Wire : Type} (c : ClientBehavior Wire)
    (tf : List Rec → List Wire) :
    ∀ (ops : List (Op Rec)) (e : Exporter),
      List.countP ClientCall.isStop (runOps c tf e ops).2.2 ≤
        if e.stopOnceDone then 0 else 1 := by
  intro ops
  induction ops with
  | nil =>
    intro e
    simp [runOps]
  | cons op ops ih =>
    intro e
    show List.countP ClientCall.isStop
        ((step c tf e op).calls ++ (runOps c tf (step c tf e op).exp ops).2.2) ≤ _
    rw [List.countP_append]
    cases op with
    | start =>
      have hstep : step c tf e Op.start = Start c e := rfl
      rw [hstep]
      have h1 : List.countP ClientCall.isStop (Start c e).calls = 0 := by
        by_cases h : e.startOnceDone = true
        · rw [start_done c e h]; rfl
        · rw [start_fresh c e (by simpa using h)]
          simp [ClientCall.isStop]
      have h2 : (Start c e).exp.stopOnceDone = e.stopOnceDone := by
        by_cases h : e.startOnceDone = true
        · rw [start_done c e h]
        · rw [start_fresh c e (by simpa using h)]
      rw [h1]
      have := ih (Start c e).exp
      rw [h2] at this
      omega
    | shutdown =>
      have hstep : step c tf e Op.shutdown = Shutdown c e := rfl
      rw [hstep]
      by_cases hs : e.started = false
      · rw [shutdown_not_started c e hs]
        show List.countP ClientCall.isStop [] +
            List.countP ClientCall.isStop (runOps c tf e ops).2.2 ≤ _
        have := ih e
        rw [List.countP_nil]
        omega
      · by_cases hd : e.stopOnceDone = true
        · rw [shutdown_done c e hd]
          show List.countP ClientCall.isStop [] +
              List.countP ClientCall.isStop (runOps c tf e ops).2.2 ≤ _
          have := ih e
          rw [List.countP_nil]
          omega
        · have hs' : e.started = true := by simpa using hs
          have hd' : e.stopOnceDone = false := by simpa using hd
          rw [shutdown_fresh c e hs' hd']
          have := ih { e with started := false, stopOnceDone := true }
          simp only [if_pos] at this
          simp only [hd', if_neg, Bool.false_eq_true, not_false_iff, if_false]
          have hc : List.countP ClientCall.isStop
              ([ClientCall.stop] : List (ClientCall Wire)) = 1 := by
            simp [ClientCall.isStop]
          omega
    | exportSpans ss =>
      have hstep : step c tf e (Op.exportSpans ss) = ExportSpans c tf e ss := rfl
      rw [hstep]
      rw [(exportSpans_calls_no_lifecycle c tf e ss).2, exportSpans_exp c tf e ss]
      have := ih e
      omega

/-- C6: for every controller that was constructed but never started —
after any sequence of operations that contains no Start — a Shutdown
call returns success immediately and performs no Client call. -/
theorem C6_shutdown_never_started {Rec Wire : Type} (c : ClientBehavior Wire)
    (tf : List Rec → List Wire) (ops : List (Op Rec)) (h : Op.start ∉ ops) :
    Shutdown c (runOps c tf NewUnstartedExporter ops).1 =
      { err := none, exp := (runOps c tf NewUnstartedExporter ops).1, calls := [] } := by
  rw [runOps_no_start_state c tf ops h]
  rfl

/-- Witness for C6 at a concrete start-free history. -/
theorem C6_witness :
    Shutdown natClientOk
        (runOps natClientOk (tracetransformSpans id) NewUnstartedExporter
          [Op.shutdown, Op.exportSpans [4]]).1 =
      { err := none
        exp := (runOps natClientOk (tracetransformSpans id) NewUnstartedExporter
          [Op.shutdown, Op.exportSpans [4]]).1
        calls := [] } :=
  C6_shutdown_never_started natClientOk (tracetransformSpans id)
    [Op.shutdown, Op.exportSpans [4]] (by decide)

/-- C7: an ExportSpans call whose input is empty, or whose transformed
wire-record sequence is empty, returns success and never invokes the
Client's upload operation. -/
theorem C7_empty_batch_noop {Rec Wire : Type} (c : ClientBehavior Wire) (f : Rec → Wire)
    (e : Exporter) (ss : List Rec) (h : ss = [] ∨ tracetransformSpans f ss = []) :
    ExportSpans c (tracetransformSpans f) e ss = { err := none, exp := e, calls := [] } := by
  have hnil : tracetransformSpans f ss = [] := by
    rcases h with h | h
    · rw [h]; rfl
    · exact h
  simp [ExportSpans, hnil]

/-- Witness for C7 at an empty concrete batch. -/
theorem C7_witness :
    ExportSpans natClientOk (tracetransformSpans id) NewUnstartedExporter ([] : List Nat) =
      { err := none, exp := NewUnstartedExporter, calls := [] } :=
  C7_empty_batch_noop natClientOk id NewUnstartedExporter [] (Or.inl rfl)

/-- C8: an ExportSpans call with a non-empty batch invokes the Client's
upload exactly once, with exactly the transformed records in input
order (the transform is a length-preserving, order-preserving map), and
returns the Client's result verbatim. -/
theorem C8_upload_once_verbatim {Rec Wire : Type} (c : ClientBehavior Wire) (f : Rec → Wire)
    (e : Exporter) (ss : List Rec) (h : ss ≠ []) :
    ExportSpans c (tracetransformSpans f) e ss =
      { err := c.uploadErr (ss.map f), exp := e
        calls := [ClientCall.upload (ss.map f)] }
    ∧ (ss.map f).length = ss.length := by
  constructor
  · have hlen : ¬(tracetransformSpans f ss).length = 0 := by
      simp [tracetransformSpans, List.length_eq_zero, h]
    simp [ExportSpans, tracetransformSpans, hlen, h]
  · simp

/-- Witness for C8 at a concrete two-record batch. -/
theorem C8_witness :
    ExportSpans natClientOk (tracetransformSpans id) NewUnstartedExporter [5, 9] =
      { err := none, exp := NewUnstartedExporter, calls := [ClientCall.upload [5, 9]] }
    ∧ ([5, 9].map id).length = [5, 9].length :=
  C8_upload_once_verbatim natClientOk id NewUnstartedExporter [5, 9] (by decide)

/-- C9: ExportSpans neither reads nor writes the lifecycle state: the
exporter state is returned unchanged, and both the returned error and
the Client calls performed are independent of the exporter state. -/
theorem C9_export_frame {Rec Wire : Type} (c : ClientBehavior Wire)
    (spansTf : List Rec → List Wire) (e e2 : Exporter) (ss : List Rec) :
    (ExportSpans c spansTf e ss).exp = e
    ∧ (ExportSpans c spansTf e ss).err = (ExportSpans c spansTf e2 ss).err
    ∧ (ExportSpans c spansTf e ss).calls = (ExportSpans c spansTf e2 ss).calls := by
  refine ⟨exportSpans_exp c spansTf e ss, ?_, ?_⟩ <;>
    · unfold ExportSpans
      split <;> rfl

/-- C10: NewExporter constructs a controller and starts it; a Client
start error is returned with a nil exporter, and success returns the
started exporter with no error. -/
theorem C10_newExporter {Wire : Type} (c : ClientBehavior Wire) :
    (∀ er : ExpError, c.startErr = some er →
        NewExporter c = (none, some er, [ClientCall.start]))
    ∧ (c.startErr = none →
        NewExporter c =
          (some { started := true, startOnceDone := true, stopOnceDone := false },
            none, [ClientCall.start])
        ∧ Exporter.abstractState
              { started := true, startOnceDone := true, stopOnceDone := false } =
            ControllerState.Running) := by
  constructor
  · intro er h
    simp [NewExporter, Start, NewUnstartedExporter, h]
  · intro h
    refine ⟨?_, rfl⟩
    simp [NewExporter, Start, NewUnstartedExporter, h]

/-- Witness for C10 with a Client whose start fails. -/
theorem C10_witness :
    NewExporter natClientStartFail = (none, some (ExpError.client 3), [ClientCall.start]) :=
  (C10_newExporter natClientStartFail).1 (ExpError.client 3) rfl

/-- C1 is false on the code: on a freshly constructed controller (state
Idle, so before Running) an ExportSpans call with one record is not
dropped — it invokes the Client's upload operation. -/
theorem C1_counterexample :
    Exporter.abstractState NewUnstartedExporter = ControllerState.Idle
    ∧ (ExportSpans natClientOk (tracetransformSpans id) NewUnstartedExporter [1]).calls =
        [ClientCall.upload [1]]
    ∧ (ExportSpans natClientOk (tracetransformSpans id) NewUnstartedExporter [1]).calls ≠
        ([] : List (ClientCall Nat)) := by
  refine ⟨rfl, rfl, ?_⟩
  decide

/-- C1 (amended): ExportSpans never consults the lifecycle state.  A
call made before the controller is Running or after it is Stopped whose
transformed batch is empty is a no-op success, but one whose
transformed batch is non-empty still invokes the Client's upload
exactly once and returns its result. -/
theorem C1_export_ignores_lifecycle {Rec Wire : Type} (c : ClientBehavior Wire)
    (tf : List Rec → List Wire) (e : Exporter) (ss : List Rec)
    (_hstate : e.abstractState ≠ ControllerState.Running) :
    (tf ss = [] → ExportSpans c tf e ss = { err := none, exp := e, calls := [] })
    ∧ (tf ss ≠ [] →
        ExportSpans c tf e ss =
          { err := c.uploadErr (tf ss), exp := e
            calls := [ClientCall.upload (tf ss)] }) := by
  constructor
  · intro h
    simp [ExportSpans, h]
  · intro h
    have hlen : ¬(tf ss).length = 0 := by
      simpa [List.length_eq_zero] using h
    simp [ExportSpans, hlen]

/-- Witness for the amended C1 on a Stopped controller. -/
theorem C1_witness :
    ExportSpans natClientOk (tracetransformSpans id)
        { started := false, startOnceDone := true, stopOnceDone := true } [2] =
      { err := none
        exp := { started := false, startOnceDone := true, stopOnceDone := true }
        calls := [ClientCall.upload [2]] } :=
  (C1_export_ignores_lifecycle natClientOk (tracetransformSpans id)
      { started := false, startOnceDone := true, stopOnceDone := true } [2]
      (by decide)).2 (by decide)

/-- C2 is false on the code: with a Client whose Stop fails, the first
Shutdown after Start returns the error, but a subsequent Shutdown call
returns nil rather than that error. -/
theorem C2_counterexample :
    (Shutdown natClientStopFail (Start natClientStopFail NewUnstartedExporter).exp).err =
      some (ExpError.client 7)
    ∧ (Shutdown natClientStopFail
          (Shutdown natClientStopFail
            (Start natClientStopFail NewUnstartedExporter).exp).exp).err = none
    ∧ (none : Option ExpError) ≠ some (ExpError.client 7) := by
  refine ⟨rfl, rfl, ?_⟩
  decide

/-- C2 (amended): on a started controller the first Shutdown performs
the sole Client Stop call and returns its result; every subsequent
Shutdown — and any later operation — returns nil for Shutdown and never
produces another Stop call. -/
theorem C2_first_shutdown_gets_result {Rec Wire : Type} (c : ClientBehavior Wire)
    (tf : List Rec → List Wire) (e : Exporter)
    (h1 : e.started = true) (h2 : e.startOnceDone = true) (h3 : e.stopOnceDone = false) :
    (Shutdown c e).err = c.stopErr
    ∧ (Shutdown c e).calls = [ClientCall.stop]
    ∧ ∀ ops : List (Op Rec),
        List.countP ClientCall.isStop (runOps c tf (Shutdown c e).exp ops).2.2 = 0
        ∧ ∀ p ∈ ops.zip (runOps c tf (Shutdown c e).exp ops).2.1,
            p.1 = Op.shutdown → p.2 = none := by
  have hsd := shutdown_fresh c e h1 h3
  refine ⟨by rw [hsd], by rw [hsd], ?_⟩
  intro ops
  have hinert := runOps_inert c tf (Shutdown c e).exp
    (by rw [hsd]) (by rw [hsd]; exact h2) ops
  exact ⟨hinert.2.1, hinert.2.2⟩

/-- Witness for the amended C2 with a failing Stop. -/
theorem C2_witness :
    (Shutdown natClientStopFail
        { started := true, startOnceDone := true, stopOnceDone := false }).err =
      some (ExpError.client 7) :=
  (C2_first_shutdown_gets_result natClientStopFail (tracetransformSpans (id : Nat → Nat))
      { started := true, startOnceDone := true, stopOnceDone := false }
      rfl rfl rfl).1

/-- C3: over every sequence of operations on a freshly constructed
controller the Client's Start is invoked at most once and its Stop at
most once, and every Start call made after the gate is consumed returns
the alreadyStarted sentinel, changes nothing, and performs no Client
call. -/
theorem C3_client_contacted_once {Rec Wire : Type} (c : ClientBehavior Wire)
    (tf : List Rec → List Wire) (ops : List (Op Rec)) :
    List.countP ClientCall.isStart (runOps c tf NewUnstartedExporter ops).2.2 ≤ 1
    ∧ List.countP ClientCall.isStop (runOps c tf NewUnstartedExporter ops).2.2 ≤ 1
    ∧ ∀ e : Exporter, e.startOnceDone = true →
        Start c e = { err := some ExpError.alreadyStarted, exp := e, calls := [] } := by
  refine ⟨?_, ?_, ?_⟩
  · have h := runOps_start_calls_bound c tf ops NewUnstartedExporter
    simpa [NewUnstartedExporter] using h
  · have h := runOps_stop_calls_bound c tf ops NewUnstartedExporter
    simpa [NewUnstartedExporter] using h
  · intro e he
    exact start_done c e he

/-- Witness for C3: a second Start fails with the sentinel and no
Client call. -/
theorem C3_witness :
    Start natClientOk { started := true, startOnceDone := true, stopOnceDone := false } =
      { err := some ExpError.alreadyStarted
        exp := { started := true, startOnceDone := true, stopOnceDone := false }
        calls := [] } :=
  (C3_client_contacted_once natClientOk (tracetransformSpans (id : Nat → Nat)) []).2.2
    { started := true, startOnceDone := true, stopOnceDone := false } rfl

/-- C4: the first Start marks the controller Running regardless of the
Client's outcome (the post-state does not depend on the Client at all),
returns the Client's error verbatim, and a later Shutdown still invokes
the Client's Stop exactly once. -/
theorem C4_running_before_client {Wire : Type} (c : ClientBehavior Wire) (e : Exporter)
    (h : e.startOnceDone = false) :
    (Start c e).err = c.startErr
    ∧ (Start c e).exp.started = true
    ∧ (Start c e).exp.abstractState = ControllerState.Running
    ∧ (∀ c2 : ClientBehavior Wire, (Start c e).exp = (Start c2 e).exp)
    ∧ (e.stopOnceDone = false →
        (Shutdown c (Start c e).exp).calls = [ClientCall.stop]
        ∧ (Shutdown c (Start c e).exp).err = c.stopErr) := by
  have hs := start_fresh c e h
  refine ⟨by rw [hs], by rw [hs], by rw [hs]; rfl, ?_, ?_⟩
  · intro c2
    rw [hs, start_fresh c2 e h]
  · intro h2
    have hsd := shutdown_fresh c (Start c e).exp (by rw [hs]) (by rw [hs]; exact h2)
    exact ⟨by rw [hsd], by rw [hsd]⟩

/-- Witness for C4 with a Client whose Start fails: the error is
surfaced, the state is Running, and Shutdown still stops the Client. -/
theorem C4_witness :
    (Start natClientStartFail NewUnstartedExporter).err = some (ExpError.client 3)
    ∧ (Start natClientStartFail NewUnstartedExporter).exp.abstractState =
        ControllerState.Running
    ∧ (Shutdown natClientStartFail (Start natClientStartFail NewUnstartedExporter).exp).calls =
        [ClientCall.stop] :=
  have h := C4_running_before_client natClientStartFail NewUnstartedExporter rfl
  ⟨h.1, h.2.2.1, (h.2.2.2.2 rfl).1⟩

/-- The reachable states are exactly the three concrete field
configurations. -/
theorem wf_cases (e : Exporter) (h : e.wf) :
    e = { started := false, startOnceDone := false, stopOnceDone := false }
    ∨ e = { started := true, startOnceDone := true, stopOnceDone := false }
    ∨ e = { started := false, startOnceDone := true, stopOnceDone := true } := by
  rcases h with ⟨h1, h2, h3⟩ | ⟨h1, h2, h3⟩ | ⟨h1, h2, h3⟩
  · left
    cases e
    simp_all
  · right; left
    cases e
    simp_all
  · right; right
    cases e
    simp_all

/-- Step reduction for export operations, stated over `step`. -/
theorem step_export_exp {Rec Wire : Type} (c : ClientBehavior Wire)
    (tf : List Rec → List Wire) (e : Exporter) (ss : List Rec) :
    (step c tf e (Op.exportSpans ss)).exp = e :=
  exportSpans_exp c tf e ss

/-- C5: the lifecycle state machine — Idle at construction, reachable
states stay reachable, the only abstract transitions are Idle to
Running via Start and Running to Stopped via Shutdown, a Start in Idle
always reaches Running, a Shutdown in Running always reaches Stopped,
and no operation changes a Stopped controller's state at all. -/
theorem C5_lifecycle_state_machine {Rec Wire : Type} (c : ClientBehavior Wire)
    (tf : List Rec → List Wire) :
    NewUnstartedExporter.abstractState = ControllerState.Idle
    ∧ (∀ (e : Exporter) (op : Op Rec), e.wf → (step c tf e op).exp.wf)
    ∧ (∀ (e : Exporter) (op : Op Rec), e.wf →
        (step c tf e op).exp.abstractState = e.abstractState
        ∨ (e.abstractState = ControllerState.Idle ∧ op = Op.start
            ∧ (step c tf e op).exp.abstractState = ControllerState.Running)
        ∨ (e.abstractState = ControllerState.Running ∧ op = Op.shutdown
            ∧ (step c tf e op).exp.abstractState = ControllerState.Stopped))
    ∧ (∀ e : Exporter, e.wf → e.abstractState = ControllerState.Idle →
        (step c tf e (Op.start : Op Rec)).exp.abstractState = ControllerState.Running)
    ∧ (∀ e : Exporter, e.wf → e.abstractState = ControllerState.Running →
        (step c tf e (Op.shutdown : Op Rec)).exp.abstractState = ControllerState.Stopped)
    ∧ (∀ (e : Exporter) (op : Op Rec), e.wf →
        e.abstractState = ControllerState.Stopped → (step c tf e op).exp = e) := by
  refine ⟨rfl, ?_, ?_, ?_, ?_, ?_⟩
  · intro e op hwf
    rcases wf_cases e hwf with h | h | h <;> subst h
    · cases op with
      | start => exact Or.inr (Or.inl ⟨rfl, rfl, rfl⟩)
      | shutdown => exact Or.inl ⟨rfl, rfl, rfl⟩
      | exportSpans ss =>
        rw [step_export_exp c tf _ ss]
        exact Or.inl ⟨rfl, rfl, rfl⟩
    · cases op with
      | start => exact Or.inr (Or.inl ⟨rfl, rfl, rfl⟩)
      | shutdown => exact Or.inr (Or.inr ⟨rfl, rfl, rfl⟩)
      | exportSpans ss =>
        rw [step_export_exp c tf _ ss]
        exact Or.inr (Or.inl ⟨rfl, rfl, rfl⟩)
    · cases op with
      | start => exact Or.inr (Or.inr ⟨rfl, rfl, rfl⟩)
      | shutdown => exact Or.inr (Or.inr ⟨rfl, rfl, rfl⟩)
      | exportSpans ss =>
        rw [step_export_exp c tf _ ss]
        exact Or.inr (Or.inr ⟨rfl, rfl, rfl⟩)
  · intro e op hwf
    rcases wf_cases e hwf with h | h | h <;> subst h
    · cases op with
      | start => exact Or.inr (Or.inl ⟨rfl, rfl, rfl⟩)
      | shutdown => exact Or.inl rfl
      | exportSpans ss =>
        left
        rw [step_export_exp c tf _ ss]
    · cases op with
      | start => exact Or.inl rfl
      | shutdown => exact Or.inr (Or.inr ⟨rfl, rfl, rfl⟩)
      | exportSpans ss =>
        left
        rw [step_export_exp c tf _ ss]
    · cases op with
      | start => exact Or.inl rfl
      | shutdown => exact Or.inl rfl
      | exportSpans ss =>
        left
        rw [step_export_exp c tf _ ss]
  · intro e hwf hstate
    rcases wf_cases e hwf with h | h | h <;> subst h
    · rfl
    · exact absurd hstate (by decide)
    · exact absurd hstate (by decide)
  · intro e hwf hstate
    rcases wf_cases e hwf with h | h | h <;> subst h
    · exact absurd hstate (by decide)
    · rfl
    · exact absurd hstate (by decide)
  · intro e op hwf hstate
    rcases wf_cases e hwf with h | h | h <;> subst h
    · exact absurd hstate (by decide)
    · exact absurd hstate (by decide)
    · cases op with
      | start => rfl
      | shutdown => rfl
      | exportSpans ss => exact step_export_exp c tf _ ss

/-- Witness for C5: on a Stopped controller a Shutdown step changes
nothing. -/
theorem C5_witness :
    (step natClientOk (tracetransformSpans id)
        { started := false, startOnceDone := true, stopOnceDone := true }
        (Op.shutdown : Op Nat)).exp =
      { started := false, startOnceDone := true, stopOnceDone := true } :=
  (C5_lifecycle_state_machine natClientOk (tracetransformSpans id)).2.2.2.2.2
    { started := false, startOnceDone := true, stopOnceDone := true }
    Op.shutdown (Or.inr (Or.inr ⟨rfl, rfl, rfl⟩)) rfl

end Otlptrace
